import Mathlib

/-!
Verification of the e-learning platform (Django app `courses`):
model of `Enrollment.calculate_progress`, `Enrollment.issue_certificate`,
the Paystack payment views (`paystack_webhook`, `payment_verify`,
`initiate_payment`) and `lesson_view` progress tracking, embedded from
`courses/models.py` and `courses/views.py`.
-/

namespace EMining

/-! ### IEEE-754 double model

`calculate_progress` computes `int((completed_lessons / total_lessons) * 100)`
in Python, i.e. in double-precision floating point.  We model the
nonnegative normal-range doubles exactly: a positive value is a mantissa of
53 significant bits times a power of two, obtained by rounding the exact
value to nearest, ties to even.  Exact nonnegative rationals are carried as
numerator/denominator pairs of naturals (not necessarily reduced), and a
double as a pair (mantissa, binary exponent). -/

/-- Fuel-based `⌊log₂ n⌋` (0 for `n < 2`), structurally recursive so the
kernel can evaluate it. -/
def log2f (fuel n : ℕ) : ℕ :=
  match fuel with
  | 0 => 0
  | fuel + 1 => if n < 2 then 0 else log2f fuel (n / 2) + 1

/-- `⌊log₂ n⌋` for `n ≥ 1`. -/
def floorLog2 (n : ℕ) : ℕ := log2f n n

/-- Round the fraction `a / b` (with `b ≥ 1`) to the nearest integer,
ties to even. -/
def rneF (a b : ℕ) : ℕ :=
  let n := a / b
  let r := a % b
  if 2 * r < b then n
  else if b < 2 * r then n + 1
  else if n % 2 = 0 then n else n + 1

/-- Binary exponent of `a / b` for `a, b ≥ 1`: the unique `e` with
`2^e ≤ a/b < 2^(e+1)`. -/
def qexpF (a b : ℕ) : ℤ :=
  if b ≤ a then (floorLog2 (a / b) : ℤ)
  else
    let j := floorLog2 (b / a)
    if b = a * 2^j then -(j:ℤ) else -(j:ℤ) - 1

/-- The fraction `(a / b) / 2^e`, as a numerator/denominator pair. -/
def scaleDown (a b : ℕ) (e : ℤ) : ℕ × ℕ :=
  match e with
  | .ofNat n => (a, b * 2^n)
  | .negSucc n => (a * 2^(n+1), b)

/-- Round the nonnegative fraction `a / b` (with `b ≥ 1`) to the nearest
double, returned as (mantissa, exponent) with value `m * 2^e`;
zero becomes `(0, 0)`. -/
def roundDoubleF (a b : ℕ) : ℕ × ℤ :=
  if a = 0 then (0, 0)
  else
    let e := qexpF a b - 52
    let p := scaleDown a b e
    (rneF p.1 p.2, e)

/-- Python `int((c / t) * 100)` for naturals `c`, `t ≥ 1`: the float
division `c / t` is correctly rounded, the product with the (exactly
representable) float 100 is correctly rounded, and `int` truncates the
nonnegative result toward zero, i.e. floors it. -/
def pyPercent (c t : ℕ) : ℕ :=
  let d := roundDoubleF c t
  let d2 :=
    match d.2 with
    | .ofNat n => roundDoubleF (d.1 * 100 * 2^n) 1
    | .negSucc n => roundDoubleF (d.1 * 100) (2^(n+1))
  match d2.2 with
  | .ofNat n => d2.1 * 2^n
  | .negSucc n => d2.1 / 2^(n+1)

/-! ### Enrollment progress and certificates (`courses/models.py`)

`EnrState` is the stored database state relevant to one (student, course)
pair: the mutable fields of the `Enrollment` row (`completed`,
`completed_at`, `progress_percentage`) and the number of `Certificate`
rows for the pair (`unique_together ['student', 'course']` allows at most
one; we keep a count so that uniqueness is a provable statement, not an
assumption of the model).  Timestamps are naturals (`timezone.now()`
passed as the `now` argument). -/

structure EnrState where
  completed : Bool
  completedAt : Option ℕ
  progressPercentage : ℕ
  certCount : ℕ
deriving DecidableEq, Repr

/-- `Enrollment.issue_certificate` (models.py 117-126): if the enrollment
is completed and no `Certificate` row exists for (student, course), create
one and return it; otherwise return `None`.  The created certificate is
abstracted to `()` since its uuid-based id is irrelevant to the claims. -/
def issue_certificate (s : EnrState) : EnrState × Option Unit :=
  if s.completed = true ∧ s.certCount = 0 then
    ({ s with certCount := s.certCount + 1 }, some ())
  else (s, none)

/-- `Enrollment.calculate_progress` (models.py 95-115).  `total` is the
count of lessons of the course, `c` the count of completed
`LessonProgress` rows of this student in this course.  If `total = 0` the
method returns 0 without touching `self` and without saving.  Otherwise it
sets `progress_percentage` to the float-computed
`int((c / total) * 100)`; if that is 100 and the enrollment was not yet
completed it sets `completed`/`completed_at`, saves, and issues the
certificate; otherwise it just saves.  Returns the new percentage. -/
def calculate_progress (total c now : ℕ) (s : EnrState) : EnrState × ℕ :=
  if total = 0 then (s, 0)
  else
    let pct := pyPercent c total
    let s1 := { s with progressPercentage := pct }
    if pct = 100 ∧ s1.completed = false then
      ((issue_certificate
        { s1 with completed := true, completedAt := some now }).1, pct)
    else (s1, pct)

/-! ### Orders and payment fulfillment (`courses/views.py`)

`StoreState` is the stored state touched by the payment paths for one
order: the order's mutable fields, the list of courses of the order's
user that have an `Enrollment` row, and whether the user's cart rows
still exist.  `payment_reference` and `payment_method` values are
abstracted to naturals. -/

inductive OrderStatus
  | pending
  | processing
  | completed
  | failed
  | refunded
deriving DecidableEq, Repr

structure OrderState where
  status : OrderStatus
  paymentReference : Option ℕ
  paymentMethod : Option ℕ
  completedAt : Option ℕ
deriving DecidableEq, Repr

structure StoreState where
  order : OrderState
  enrolledCourses : List ℕ
  cartExists : Bool
deriving DecidableEq, Repr

/-- `Enrollment.objects.get_or_create(student=order.user, course=...)`
looped over the order items (views.py 543-547 and 588-592): for each
ordered course, an `Enrollment` row is created unless one already
exists. -/
def enrollCourses (items : List ℕ) (enrolled : List ℕ) : List ℕ :=
  items.foldl (fun es course => if course ∈ es then es else es ++ [course]) enrolled

/-- The fulfillment block shared by `paystack_webhook` on
`charge.success` (views.py 536-553) and the success path of
`payment_verify` (views.py 581-599): unconditionally set
`status = 'completed'`, `payment_reference`, `payment_method`,
`completed_at = timezone.now()`, save, enroll the user in every ordered
course via `get_or_create`, and delete the cart.  There is no guard on
the order's current status. -/
def fulfill_order (payRef channel now : ℕ) (items : List ℕ) (w : StoreState) :
    StoreState :=
  { order := { status := .completed, paymentReference := some payRef,
               paymentMethod := some channel, completedAt := some now },
    enrolledCourses := enrollCourses items w.enrolledCourses,
    cartExists := false }

/-- `order.status = 'failed'; order.save()` — the failure paths of
`payment_verify` (views.py 603-604) and `initiate_payment`
(views.py 517, 521): only the status field changes. -/
def mark_failed (w : StoreState) : StoreState :=
  { w with order := { w.order with status := .failed } }

/-- `admin_update_order_status` (admin_views.py 466-482): on a superuser
POST, fetch the order by id and set `order.status` to the posted value,
provided it is one of `STATUS_CHOICES`; `OrderStatus` is exactly that
choice set, so every `st : OrderStatus` passes the check.  No other
field changes, and there is no restriction on the current status. -/
def admin_update_order_status (st : OrderStatus) (w : StoreState) : StoreState :=
  { w with order := { w.order with status := st } }

/-- Every assignment to an existing order's `status` in the repository,
as a step relation on the stored state: in `courses/views.py`,
`paystack_webhook` on `charge.success` and the `payment_verify` success
path run the unguarded fulfillment from any current status, the
`payment_verify` failure path marks the order failed from any current
status, and the `initiate_payment` failure paths mark failed the order
that was just created with status `'pending'`; in
`courses/admin_views.py`, `admin_update_order_status` sets any of the
five statuses on any existing order. -/
inductive OrderStep : StoreState → StoreState → Prop
  | webhookSuccess (payRef channel now : ℕ) (items : List ℕ) (w : StoreState) :
      OrderStep w (fulfill_order payRef channel now items w)
  | verifySuccess (payRef channel now : ℕ) (items : List ℕ) (w : StoreState) :
      OrderStep w (fulfill_order payRef channel now items w)
  | verifyFailure (w : StoreState) :
      OrderStep w (mark_failed w)
  | initFailure (w : StoreState) (h : w.order.status = .pending) :
      OrderStep w (mark_failed w)
  | adminSetStatus (st : OrderStatus) (w : StoreState) :
      OrderStep w (admin_update_order_status st w)

/-! ### Lesson progress tracking (`courses/views.py` `lesson_view`) -/

/-- A `LessonProgress` row for one (student, lesson) pair
(models.py 187-197).  `last_viewed` is `auto_now`, so it is (re)written
exactly when the row is saved. -/
structure LessonProgressRow where
  completed : Bool
  completedAt : Option ℕ
  lastViewed : ℕ
deriving DecidableEq, Repr

/-- `LessonProgress.objects.get_or_create(student=..., lesson=...)`
(views.py 350-353): with no row present, create one with default fields
(`completed=False`, `completed_at=None`; `auto_now` stamps
`last_viewed = now` on the insert); with a row present, fetch it — no
save happens, so no field (in particular `last_viewed`) changes. -/
def get_or_create_progress (now : ℕ) (rows : List LessonProgressRow) :
    List LessonProgressRow × LessonProgressRow :=
  match rows with
  | [] =>
    let r : LessonProgressRow :=
      { completed := false, completedAt := none, lastViewed := now }
    ([r], r)
  | r :: rest => (r :: rest, r)

/-- The progress-tracking behavior of `lesson_view` (views.py 336-369)
for one (student, lesson) pair.  `enrolled`: the student has an
`Enrollment` for the lesson's course; `preview`: `lesson.is_preview`.
If neither holds the view redirects away and touches nothing.  Otherwise
the page renders, and `get_or_create` runs only when `enrolled` — a
non-enrolled student viewing a preview lesson gets no `LessonProgress`
row.  Returns whether the lesson page rendered, and the rows after the
request. -/
def lesson_view (enrolled preview : Bool) (now : ℕ)
    (rows : List LessonProgressRow) : Bool × List LessonProgressRow :=
  if enrolled = false ∧ preview = false then (false, rows)
  else if enrolled = true then (true, (get_or_create_progress now rows).1)
  else (true, rows)

/-! ### Helper lemmas about `enrollCourses` -/

theorem enrollCourses_nil (es : List ℕ) : enrollCourses [] es = es := rfl

theorem enrollCourses_cons (a : ℕ) (rest es : List ℕ) :
    enrollCourses (a :: rest) es
      = enrollCourses rest (if a ∈ es then es else es ++ [a]) := rfl

theorem mem_enrollCourses_left (items : List ℕ) :
    ∀ (es : List ℕ) (i : ℕ), i ∈ es → i ∈ enrollCourses items es := by
  induction items with
  | nil => intro es i h; exact h
  | cons a rest ih =>
    intro es i h
    rw [enrollCourses_cons]
    apply ih
    split
    · exact h
    · exact List.mem_append_left _ h

theorem mem_enrollCourses_right (items : List ℕ) :
    ∀ (es : List ℕ) (i : ℕ), i ∈ items → i ∈ enrollCourses items es := by
  induction items with
  | nil => intro es i h; cases h
  | cons a rest ih =>
    intro es i h
    rw [enrollCourses_cons]
    rcases List.mem_cons.mp h with h1 | h2
    · subst h1
      apply mem_enrollCourses_left
      split
      · assumption
      · exact List.mem_append_right _ (List.mem_singleton_self i)
    · exact ih _ i h2

theorem enrollCourses_eq_self (items : List ℕ) :
    ∀ es : List ℕ, (∀ i ∈ items, i ∈ es) → enrollCourses items es = es := by
  induction items with
  | nil => intro es _; rfl
  | cons a rest ih =>
    intro es h
    rw [enrollCourses_cons, if_pos (h a (List.mem_cons_self a rest))]
    exact ih es fun i hi => h i (List.mem_cons_of_mem a hi)

theorem enrollCourses_idem (items es : List ℕ) :
    enrollCourses items (enrollCourses items es) = enrollCourses items es :=
  enrollCourses_eq_self items _ fun i hi => mem_enrollCourses_right items es i hi

theorem enrollCourses_nodup (items : List ℕ) :
    ∀ es : List ℕ, es.Nodup → (enrollCourses items es).Nodup := by
  induction items with
  | nil => intro es h; exact h
  | cons a rest ih =>
    intro es h
    rw [enrollCourses_cons]
    apply ih
    split
    · exact h
    · rename_i ha
      rw [List.nodup_append]
      exact ⟨h, List.nodup_singleton a, by simpa using ha⟩

/-! ### Claims about enrollment progress -/

/-- Claim C1, counterexample.  The claim says a zero-lesson course makes
`calculate_progress` persist `percentage = 0` and `completed = false`.
In the code `total_lessons == 0` returns 0 before any assignment or
`save()`: an enrollment with stored percentage 50 keeps it, and an
already-completed enrollment keeps `completed = true`. -/
theorem c1_counterexample :
    (calculate_progress 0 0 3 ⟨false, none, 50, 0⟩).1.progressPercentage ≠ 0
    ∧ (calculate_progress 0 0 3 ⟨false, none, 50, 0⟩).2 = 0
    ∧ (calculate_progress 0 0 3 ⟨true, some 2, 100, 1⟩).1.completed ≠ false := by
  decide

/-- Claim C1, amended: when the course has zero lessons,
`calculate_progress` returns 0 and changes nothing — the stored state
(percentage, completed flag, completed-at, certificates) is exactly what
it was, and no completion transition is triggered. -/
theorem calculate_progress_zero_total (c now : ℕ) (s : EnrState) :
    calculate_progress 0 c now s = (s, 0) := by
  simp [calculate_progress]

/-- Claim C3: once an enrollment is completed, every later
`calculate_progress` call leaves `completed = true` and leaves
`completed_at` unchanged, whatever the lesson counts now are (the
transition guard requires `not self.completed`). -/
theorem completed_one_way (total c now : ℕ) (s : EnrState)
    (h : s.completed = true) :
    (calculate_progress total c now s).1.completed = true
    ∧ (calculate_progress total c now s).1.completedAt = s.completedAt := by
  unfold calculate_progress
  split
  · simp [h]
  · simp [h]

/-- Witness for C3 at a concrete completed enrollment whose course shrank
to 5 lessons of which only 3 are completed. -/
theorem completed_one_way_witness :
    (calculate_progress 5 3 9 ⟨true, some 2, 100, 1⟩).1.completed = true
    ∧ (calculate_progress 5 3 9 ⟨true, some 2, 100, 1⟩).1.completedAt
        = (⟨true, some 2, 100, 1⟩ : EnrState).completedAt :=
  completed_one_way 5 3 9 ⟨true, some 2, 100, 1⟩ rfl

/-- Claim C4: for an eligible enrollment (completed, no certificate row
for the (student, course) pair yet) `issue_certificate` creates exactly
one certificate and returns it, and a second call creates nothing and
returns `None`, leaving exactly one row. -/
theorem issue_certificate_once (s : EnrState) (hc : s.completed = true)
    (h0 : s.certCount = 0) :
    (issue_certificate s).2 = some ()
    ∧ (issue_certificate s).1.certCount = 1
    ∧ issue_certificate (issue_certificate s).1 = ((issue_certificate s).1, none) := by
  unfold issue_certificate
  simp [hc, h0]

/-- Witness for C4 at a concrete completed enrollment without a
certificate. -/
theorem issue_certificate_once_witness :
    (issue_certificate ⟨true, some 1, 100, 0⟩).2 = some ()
    ∧ (issue_certificate ⟨true, some 1, 100, 0⟩).1.certCount = 1
    ∧ issue_certificate (issue_certificate ⟨true, some 1, 100, 0⟩).1
        = ((issue_certificate ⟨true, some 1, 100, 0⟩).1, none) :=
  issue_certificate_once ⟨true, some 1, 100, 0⟩ rfl rfl

/-- Claim C6: with no intervening change to the lesson counts, a second
`calculate_progress` call (at any later time) leaves the stored state and
the returned percentage exactly as the first call left them. -/
theorem calculate_progress_idem (total c now1 now2 : ℕ) (s : EnrState) :
    calculate_progress total c now2 (calculate_progress total c now1 s).1
      = ((calculate_progress total c now1 s).1, (calculate_progress total c now1 s).2) := by
  rcases s with ⟨cmp, cat, pp, cc⟩
  unfold calculate_progress issue_certificate
  by_cases ht : total = 0
  · simp [ht]
  · simp only [if_neg ht]
    by_cases hp : pyPercent c total = 100
    · cases cmp
      · simp [hp]
        split <;> simp [hp]
      · simp [hp]
    · simp [hp]

/-- Claim C7, counterexample.  The claim says the stored percentage is
exactly `floor(completed / total * 100)`.  With 29 of 50 lessons
completed the exact value is 58, but the float product
`(29 / 50) * 100` is `57.99999999999999`, so Python stores
`int(...) = 57`. -/
theorem c7_counterexample :
    (calculate_progress 50 29 0 ⟨false, none, 0, 0⟩).1.progressPercentage = 57
    ∧ 29 * 100 / 50 = 58
    ∧ (calculate_progress 50 29 0 ⟨false, none, 0, 0⟩).1.progressPercentage
        ≠ 29 * 100 / 50 := by
  decide

/-- Claim C7, amended: for a course with `total > 0` lessons, the stored
and returned percentage is the double-precision value
`int((completed / total) * 100)` (`pyPercent`); this matches the
mathematical floor on the cited scenario (1 of 4 gives 25) but is one
below it when float rounding lands just under an integer, as at 29 of 50
(57 versus floor 58). -/
theorem calculate_progress_float (total c now : ℕ) (s : EnrState)
    (ht : 0 < total) :
    (calculate_progress total c now s).1.progressPercentage = pyPercent c total
    ∧ (calculate_progress total c now s).2 = pyPercent c total
    ∧ pyPercent 1 4 = 25
    ∧ pyPercent 29 50 = 57 ∧ 29 * 100 / 50 = 58 := by
  refine ⟨?_, ?_, by decide, by decide, by decide⟩ <;>
  · unfold calculate_progress issue_certificate
    rw [if_neg (Nat.pos_iff_ne_zero.mp ht)]
    by_cases hp : pyPercent c total = 100 ∧ s.completed = false
    · simp [hp]
      try split <;> simp
    · simp [hp]

/-- Witness for the amended C7 at the cited scenario: 1 of 4 lessons
completed stores 25. -/
theorem calculate_progress_float_witness :
    (calculate_progress 4 1 0 ⟨false, none, 0, 0⟩).1.progressPercentage = pyPercent 1 4
    ∧ (calculate_progress 4 1 0 ⟨false, none, 0, 0⟩).2 = pyPercent 1 4
    ∧ pyPercent 1 4 = 25
    ∧ pyPercent 29 50 = 57 ∧ 29 * 100 / 50 = 58 :=
  calculate_progress_float 4 1 0 ⟨false, none, 0, 0⟩ (by decide)

/-- Claim C10: on a completed enrollment, `calculate_progress` (course
with at least one lesson) still overwrites the stored percentage with the
newly derived value while `completed` stays true; concretely, completing
a 4-lesson course and then recalculating after a fifth lesson was added
reaches the state `completed = true` with percentage 80 < 100. -/
theorem completed_state_overwrite (total c now : ℕ) (s : EnrState)
    (hc : s.completed = true) (ht : 0 < total) :
    ((calculate_progress total c now s).1.progressPercentage = pyPercent c total
     ∧ (calculate_progress total c now s).1.completed = true)
    ∧ ((calculate_progress 5 4 2 ((calculate_progress 4 4 1 ⟨false, none, 0, 0⟩).1)).1.completed
          = true
        ∧ (calculate_progress 5 4 2
            ((calculate_progress 4 4 1 ⟨false, none, 0, 0⟩).1)).1.progressPercentage = 80
        ∧ 80 < 100) := by
  refine ⟨?_, by decide⟩
  unfold calculate_progress
  rw [if_neg (Nat.pos_iff_ne_zero.mp ht)]
  simp [hc]

/-- Witness for C10 at the concrete post-completion state with a fifth
lesson added. -/
theorem completed_state_overwrite_witness :
    (((calculate_progress 5 4 2 ⟨true, some 1, 100, 1⟩).1.progressPercentage = pyPercent 4 5
      ∧ (calculate_progress 5 4 2 ⟨true, some 1, 100, 1⟩).1.completed = true)
     ∧ ((calculate_progress 5 4 2 ((calculate_progress 4 4 1 ⟨false, none, 0, 0⟩).1)).1.completed
           = true
         ∧ (calculate_progress 5 4 2
             ((calculate_progress 4 4 1 ⟨false, none, 0, 0⟩).1)).1.progressPercentage = 80
         ∧ 80 < 100)) :=
  completed_state_overwrite 5 4 2 ⟨true, some 1, 100, 1⟩ rfl (by decide)

/-! ### Claims about payment fulfillment and order status -/

/-- Claim C2, counterexample.  The claim says fulfillment is a no-op on
an order already in status `completed`.  Neither `paystack_webhook` nor
`payment_verify` checks the current status: re-fulfilling a completed
order (here: completed-at 5, re-fulfilled at time 7) changes the stored
state. -/
theorem c2_counterexample :
    (⟨⟨.completed, some 1, some 1, some 5⟩, [], true⟩ : StoreState).order.status
        = OrderStatus.completed
    ∧ fulfill_order 9 8 7 [] ⟨⟨.completed, some 1, some 1, some 5⟩, [], true⟩
        ≠ (⟨⟨.completed, some 1, some 1, some 5⟩, [], true⟩ : StoreState) := by
  decide

/-- Claim C2, amended: fulfillment has no status guard and always runs;
on an already-completed order (whose ordered courses are already
enrolled) it creates no new enrollment and the status stays `completed`,
but it does overwrite `completed_at`, `payment_reference` and
`payment_method` with the values of the new callback. -/
theorem fulfill_order_unguarded (payRef channel now : ℕ) (items : List ℕ)
    (w : StoreState) (hC : w.order.status = OrderStatus.completed)
    (hI : ∀ i ∈ items, i ∈ w.enrolledCourses) :
    (fulfill_order payRef channel now items w).order.status = OrderStatus.completed
    ∧ (fulfill_order payRef channel now items w).enrolledCourses = w.enrolledCourses
    ∧ (fulfill_order payRef channel now items w).order.completedAt = some now
    ∧ (fulfill_order payRef channel now items w).order.paymentReference = some payRef
    ∧ (fulfill_order payRef channel now items w).order.paymentMethod = some channel :=
  ⟨rfl, enrollCourses_eq_self items _ hI, rfl, rfl, rfl⟩

/-- Witness for the amended C2: a completed order for course 4, already
enrolled, re-fulfilled at time 7. -/
theorem fulfill_order_unguarded_witness :
    (fulfill_order 9 8 7 [4] ⟨⟨.completed, some 1, some 2, some 5⟩, [4], false⟩).order.status
        = OrderStatus.completed
    ∧ (fulfill_order 9 8 7 [4] ⟨⟨.completed, some 1, some 2, some 5⟩, [4], false⟩).enrolledCourses
        = (⟨⟨.completed, some 1, some 2, some 5⟩, [4], false⟩ : StoreState).enrolledCourses
    ∧ (fulfill_order 9 8 7 [4] ⟨⟨.completed, some 1, some 2, some 5⟩, [4], false⟩).order.completedAt
        = some 7
    ∧ (fulfill_order 9 8 7 [4] ⟨⟨.completed, some 1, some 2, some 5⟩, [4], false⟩).order.paymentReference
        = some 9
    ∧ (fulfill_order 9 8 7 [4] ⟨⟨.completed, some 1, some 2, some 5⟩, [4], false⟩).order.paymentMethod
        = some 8 :=
  fulfill_order_unguarded 9 8 7 [4] ⟨⟨.completed, some 1, some 2, some 5⟩, [4], false⟩
    rfl (by decide)

/-- Claim C5, counterexample.  The claim says a `failed` order never
becomes `completed`, that nothing but the external refund leaves
`completed`, and that `completed` never goes back to `pending`.  The
webhook fulfills a failed order unconditionally (failed to completed),
the verify failure path marks a completed order failed (completed to
failed), and the admin endpoint moves a completed order back to
`pending`. -/
theorem c5_counterexample :
    (⟨⟨.failed, none, none, none⟩, [], true⟩ : StoreState).order.status = OrderStatus.failed
    ∧ OrderStep ⟨⟨.failed, none, none, none⟩, [], true⟩
        (fulfill_order 1 2 3 [] ⟨⟨.failed, none, none, none⟩, [], true⟩)
    ∧ (fulfill_order 1 2 3 [] ⟨⟨.failed, none, none, none⟩, [], true⟩).order.status
        = OrderStatus.completed
    ∧ (⟨⟨.completed, some 1, some 1, some 1⟩, [7], false⟩ : StoreState).order.status
        = OrderStatus.completed
    ∧ OrderStep ⟨⟨.completed, some 1, some 1, some 1⟩, [7], false⟩
        (mark_failed ⟨⟨.completed, some 1, some 1, some 1⟩, [7], false⟩)
    ∧ (mark_failed ⟨⟨.completed, some 1, some 1, some 1⟩, [7], false⟩).order.status
        = OrderStatus.failed
    ∧ OrderStep ⟨⟨.completed, some 1, some 1, some 1⟩, [7], false⟩
        (admin_update_order_status .pending ⟨⟨.completed, some 1, some 1, some 1⟩, [7], false⟩)
    ∧ (admin_update_order_status .pending
        ⟨⟨.completed, some 1, some 1, some 1⟩, [7], false⟩).order.status
        = OrderStatus.pending :=
  ⟨rfl, .webhookSuccess 1 2 3 [] _, rfl, rfl, .verifyFailure _, rfl,
    .adminSetStatus .pending _, rfl⟩

/-- Claim C5, amended: the automated payment paths assign only
`completed` (webhook or verify success, from any current status) or
`failed` (verify failure from any status, initialization failure from
`pending`), with no guard on the current status; every other status
assignment is the superuser endpoint `admin_update_order_status`, which
sets any chosen status (including `processing`, `refunded`, or back to
`pending`) on any existing order with no transition restriction.  So
the claimed state machine constrains nothing: `failed` to `completed`,
`completed` to `failed`, and every admin-chosen transition are
reachable. -/
theorem order_step_status_range (w w2 : StoreState) (h : OrderStep w w2) :
    (w2.order.status = OrderStatus.completed ∨ w2.order.status = OrderStatus.failed
      ∨ ∃ st : OrderStatus, w2 = admin_update_order_status st w)
    ∧ (∀ st : OrderStatus, OrderStep w (admin_update_order_status st w)
        ∧ (admin_update_order_status st w).order.status = st) := by
  constructor
  · cases h with
    | webhookSuccess payRef channel now items w => left; rfl
    | verifySuccess payRef channel now items w => left; rfl
    | verifyFailure w => right; left; rfl
    | initFailure w hp => right; left; rfl
    | adminSetStatus st w => right; right; exact ⟨st, rfl⟩
  · intro st
    exact ⟨.adminSetStatus st w, rfl⟩

/-- Witness for the amended C5: the webhook step on a pending order. -/
theorem order_step_status_range_witness :
    ((fulfill_order 1 2 3 [4] ⟨⟨.pending, none, none, none⟩, [], true⟩).order.status
        = OrderStatus.completed
      ∨ (fulfill_order 1 2 3 [4] ⟨⟨.pending, none, none, none⟩, [], true⟩).order.status
        = OrderStatus.failed
      ∨ ∃ st : OrderStatus,
          fulfill_order 1 2 3 [4] ⟨⟨.pending, none, none, none⟩, [], true⟩
            = admin_update_order_status st ⟨⟨.pending, none, none, none⟩, [], true⟩)
    ∧ (∀ st : OrderStatus,
        OrderStep ⟨⟨.pending, none, none, none⟩, [], true⟩
          (admin_update_order_status st ⟨⟨.pending, none, none, none⟩, [], true⟩)
        ∧ (admin_update_order_status st
            ⟨⟨.pending, none, none, none⟩, [], true⟩).order.status = st) :=
  order_step_status_range ⟨⟨.pending, none, none, none⟩, [], true⟩ _
    (.webhookSuccess 1 2 3 [4] _)

/-- Claim C8: fulfilling an order twice (duplicate webhook, or webhook
plus verify) leaves exactly one enrollment row per ordered course — the
second run adds nothing and raises nothing (`get_or_create`) — and the
order status remains `completed`. -/
theorem fulfill_order_twice (p1 c1 n1 p2 c2 n2 : ℕ) (items : List ℕ)
    (w : StoreState) (hn : w.enrolledCourses.Nodup) :
    (fulfill_order p2 c2 n2 items (fulfill_order p1 c1 n1 items w)).enrolledCourses
      = (fulfill_order p1 c1 n1 items w).enrolledCourses
    ∧ (∀ i ∈ items,
        (fulfill_order p2 c2 n2 items
          (fulfill_order p1 c1 n1 items w)).enrolledCourses.count i = 1)
    ∧ (fulfill_order p2 c2 n2 items
        (fulfill_order p1 c1 n1 items w)).order.status = OrderStatus.completed := by
  refine ⟨enrollCourses_idem items w.enrolledCourses, ?_, rfl⟩
  intro i hi
  show (enrollCourses items (enrollCourses items w.enrolledCourses)).count i = 1
  rw [enrollCourses_idem]
  exact List.count_eq_one_of_mem (enrollCourses_nodup items _ hn)
    (mem_enrollCourses_right items _ i hi)

/-- Witness for C8: an order for courses 4 and 6 fulfilled twice from a
fresh state. -/
theorem fulfill_order_twice_witness :
    (fulfill_order 9 9 9 [4, 6]
        (fulfill_order 1 2 3 [4, 6] ⟨⟨.pending, none, none, none⟩, [], true⟩)).enrolledCourses
      = (fulfill_order 1 2 3 [4, 6] ⟨⟨.pending, none, none, none⟩, [], true⟩).enrolledCourses
    ∧ (∀ i ∈ [4, 6],
        (fulfill_order 9 9 9 [4, 6]
          (fulfill_order 1 2 3 [4, 6]
            ⟨⟨.pending, none, none, none⟩, [], true⟩)).enrolledCourses.count i = 1)
    ∧ (fulfill_order 9 9 9 [4, 6]
        (fulfill_order 1 2 3 [4, 6]
          ⟨⟨.pending, none, none, none⟩, [], true⟩)).order.status = OrderStatus.completed :=
  fulfill_order_twice 1 2 3 9 9 9 [4, 6] ⟨⟨.pending, none, none, none⟩, [], true⟩
    (by simp)

/-! ### Claims about lesson progress tracking -/

/-- Claim C9, counterexample.  The claim says a view by an enrolled or
previewing student creates the progress record on first view and updates
the last-viewed timestamp on later views.  In the code the record is
created only when enrolled — a non-enrolled student viewing a preview
lesson gets no record — and `get_or_create` on an existing record does
not save, so the last-viewed timestamp stays unchanged (here: a view at
time 9 leaves it at 1). -/
theorem c9_counterexample :
    (lesson_view false true 5 []).1 = true
    ∧ (lesson_view false true 5 []).2 = []
    ∧ (lesson_view true false 9 [⟨false, none, 1⟩]).2 = [⟨false, none, 1⟩] := by
  decide

/-- Claim C9, amended: an enrolled or previewing student gets the lesson
page, but a `LessonProgress` row only exists for enrolled students: the
first enrolled view creates the single row (last-viewed stamped at
creation), every later view fetches it without changing anything (in
particular without updating last-viewed, since `get_or_create` does not
save), a non-enrolled preview view creates nothing, and repeated views
never create a second row. -/
theorem lesson_view_progress (enrolled preview : Bool) (now : ℕ)
    (rows : List LessonProgressRow) (hren : enrolled = true ∨ preview = true) :
    (lesson_view enrolled preview now rows).1 = true
    ∧ (enrolled = true → rows = [] →
        (lesson_view enrolled preview now rows).2 = [⟨false, none, now⟩])
    ∧ (enrolled = true → rows ≠ [] → (lesson_view enrolled preview now rows).2 = rows)
    ∧ (enrolled = false → (lesson_view enrolled preview now rows).2 = rows)
    ∧ (lesson_view enrolled preview now rows).2.length ≤ max rows.length 1 := by
  cases enrolled <;> cases preview <;>
    rcases rows with _ | ⟨r, rest⟩ <;>
      simp_all [lesson_view, get_or_create_progress]

/-- Witness for the amended C9: an enrolled student viewing a
non-preview lesson for the first time at time 5. -/
theorem lesson_view_progress_witness :
    (lesson_view true false 5 []).1 = true
    ∧ (true = true → ([] : List LessonProgressRow) = [] →
        (lesson_view true false 5 []).2 = [⟨false, none, 5⟩])
    ∧ (true = true → ([] : List LessonProgressRow) ≠ [] →
        (lesson_view true false 5 []).2 = [])
    ∧ (true = false → (lesson_view true false 5 []).2 = [])
    ∧ (lesson_view true false 5 []).2.length ≤ max ([] : List LessonProgressRow).length 1 :=
  lesson_view_progress true false 5 [] (Or.inl rfl)

end EMining
